import Mathlib

/-!
Verification of the go-serial port layer (port.go, config.go, errors.go).

The Go source is shallowly embedded:
  * modem statuses are `Nat` bitmasks with the Linux TIOCM bit values;
  * fallible device calls are resolved by explicit environment records;
  * every public port operation is a pure function from the port state and
    that environment to its result, paired with the ordered list of device
    calls it issues;
  * the CTS-monitor goroutine together with its depth-one write channel is a
    labelled transition system `MonStep`, with reachability via
    `Relation.ReflTransGen`.
-/

namespace GoSerial

/-- Linux TIOCM modem-line bit values used by golang.org/x/sys/unix. -/
def TIOCM_DTR : Nat := 0x002
def TIOCM_RTS : Nat := 0x004
def TIOCM_CTS : Nat := 0x020
def TIOCM_CAR : Nat := 0x040
def TIOCM_RI  : Nat := 0x080
def TIOCM_DSR : Nat := 0x100

/-- SignalMask bit values from port.go (`SignalCTS = 1 << iota`). -/
def SignalCTS : Nat := 1
def SignalDSR : Nat := 2
def SignalRI  : Nat := 4
def SignalDCD : Nat := 8

/-- The `ModemSignals` struct from port.go: six independent booleans. -/
structure ModemSignals where
  CTS : Bool
  DSR : Bool
  RI  : Bool
  DCD : Bool
  RTS : Bool
  DTR : Bool
deriving DecidableEq, Repr

/-- The Go idiom `status&unix.TIOCM_X != 0` as a boolean bit test. -/
def bitActive (status mask : Nat) : Bool := status &&& mask != 0

/-- The `ModemSignals{...}` literal built from a TIOCMGET status word, as in
`GetModemSignals` and both signal-change waiters. -/
def statusToModemSignals (status : Nat) : ModemSignals :=
  { CTS := bitActive status TIOCM_CTS
    DSR := bitActive status TIOCM_DSR
    RI  := bitActive status TIOCM_RI
    DCD := bitActive status TIOCM_CAR
    RTS := bitActive status TIOCM_RTS
    DTR := bitActive status TIOCM_DTR }

/-- The `signalMaskToTIOCM` from port.go: convert a SignalMask to TIOCM bits. -/
def signalMaskToTIOCM (mask : Nat) : Nat :=
  (if bitActive mask SignalCTS then TIOCM_CTS else 0) |||
  (if bitActive mask SignalDSR then TIOCM_DSR else 0) |||
  (if bitActive mask SignalRI then TIOCM_RI else 0) |||
  (if bitActive mask SignalDCD then TIOCM_CAR else 0)

/-- The `detectSignalChanges` from port.go: compare old and new status words and
report, for each of the four waitable lines, whether its boolean state
differs.  Note: the Go code applies no restriction to a requested mask. -/
def detectSignalChanges (oldStatus newStatus : Nat) : Nat :=
  (if bitActive oldStatus TIOCM_CTS != bitActive newStatus TIOCM_CTS
    then SignalCTS else 0) |||
  (if bitActive oldStatus TIOCM_DSR != bitActive newStatus TIOCM_DSR
    then SignalDSR else 0) |||
  (if bitActive oldStatus TIOCM_RI != bitActive newStatus TIOCM_RI
    then SignalRI else 0) |||
  (if bitActive oldStatus TIOCM_CAR != bitActive newStatus TIOCM_CAR
    then SignalDCD else 0)

/-- Error kinds surfaced by the library (errors.go), plus the two Go context
errors and the two formatted errors produced by `Open`'s flow-control
validation. -/
inductive Err
  | portClosed
  | ctsTimeout
  | signalTimeout
  | invalidSignalMask
  | invalidBaudRate
  | invalidConfig
  | ctsRequiresInitialRTS
  | rtsctsRequiresInitialRTS
  | rtsVerifyFailed
  | openFailed
  | ctxCanceled
  | ctxDeadlineExceeded
  | ioError (code : Nat)
deriving DecidableEq, Repr

/-- Device / kernel calls a port operation can issue, in order.  `queueWriteCall`
records the timeout handed to `ctsMonitor.queueWrite`. -/
inductive Call
  | tiocmget
  | tiocmset
  | tiocmiwait
  | unixRead
  | unixWrite
  | unixClose
  | monitorStopCall
  | openDevice
  | configurePortCall
  | tcsbrk
  | tcflsh
  | queueWriteCall (timeout : Int)
deriving DecidableEq, Repr

/-- The `FlowControl` enumeration from port.go. -/
inductive FlowControl
  | flowNone
  | flowCTS
  | flowRTSCTS
deriving DecidableEq, Repr

/-- The `Parity` enumeration from port.go. -/
inductive Parity
  | parityNone | parityOdd | parityEven | parityMark | paritySpace
deriving DecidableEq, Repr

/-- The `WriteMode` enumeration from config.go. -/
inductive WriteMode
  | buffered | synced
deriving DecidableEq, Repr

/-- The `Config` struct from config.go.  Durations are nanosecond counts
(`time.Duration` is an int64 nanosecond count in Go). -/
structure Config where
  baudRate : Nat
  dataBits : Nat
  stopBits : Nat
  parity : Parity
  flowControl : FlowControl
  ctsTimeout : Int
  readTimeout : Int
  writeMode : WriteMode
  initialRTS : Option Bool
  initialDTR : Option Bool
deriving DecidableEq, Repr

/-- The `DefaultConfig` from config.go: 115200 8N1, no flow control, 60 s CTS
timeout, 2.5 s read timeout, buffered writes, no initial signal states. -/
def DefaultConfig : Config :=
  { baudRate := 115200
    dataBits := 8
    stopBits := 1
    parity := .parityNone
    flowControl := .flowNone
    ctsTimeout := 60 * 1000000000
    readTimeout := 2500 * 1000000
    writeMode := .buffered
    initialRTS := none
    initialDTR := none }

/-- A functional option (`Option func(*Config) error` in config.go),
embedded as a config transformer that may fail. -/
def ConfigOption := Config → Except Err Config

/-- The `WithFlowControl` from config.go. -/
def WithFlowControl (fc : FlowControl) : ConfigOption :=
  fun c => .ok { c with flowControl := fc }

/-- The `WithCTSTimeout` from config.go: rejects negative timeouts. -/
def WithCTSTimeout (timeout : Int) : ConfigOption :=
  fun c => if timeout < 0 then .error .invalidConfig
           else .ok { c with ctsTimeout := timeout }

/-- The `WithInitialRTS` from config.go. -/
def WithInitialRTS (state : Bool) : ConfigOption :=
  fun c => .ok { c with initialRTS := some state }

/-- The `WithInitialDTR` from config.go. -/
def WithInitialDTR (state : Bool) : ConfigOption :=
  fun c => .ok { c with initialDTR := some state }

/-- The option-application loop at the top of `Open`: apply each option in
order, aborting on the first error. -/
def applyOptions : Config → List ConfigOption → Except Err Config
  | cfg, [] => .ok cfg
  | cfg, o :: rest =>
    match o cfg with
    | .error e => .error e
    | .ok cfg2 => applyOptions cfg2 rest

/-- The `port` struct state relevant to the public operations: the closed
flag, the configuration it was opened with, and whether a CTS monitor was
started (`ctsMonitor != nil`). -/
structure PState where
  closed : Bool
  config : Config
  hasCtsMonitor : Bool
deriving DecidableEq, Repr

/-- The device's modem-status register as seen through TIOCMGET/TIOCMSET.
This models a loopback/mock handle whose register faithfully holds what was
last written. -/
structure Device where
  status : Nat
deriving DecidableEq, Repr

/-- Environment resolving the two ioctls issued by a set/get signal
operation: `none` means the call succeeds. -/
structure IoEnv where
  getStatusErr : Option Err
  setStatusErr : Option Err
deriving DecidableEq, Repr

/-- The `writeRequest` from port.go: the queued data plus (implicitly) its
one-shot result channel, identified here by a unique id. -/
structure writeRequest where
  id : Nat
  data : List Nat
deriving DecidableEq, Repr

/-- Control position of the monitor goroutine of `ctsMonitor.start`:
`loop` is the top of the `for` loop (and the status-check section),
`waiting` is inside the select racing `stopCh` against the edge-wait
goroutine, `exited` means the goroutine returned. -/
inductive MPhase
  | loop | waiting | exited
deriving DecidableEq, Repr

/-- Global state of one port's CTS write gate: the `stopCh`/`writeCh`
channels, the goroutine's local `pendingWrite`, the current CTS line level,
and instrumentation (executed kernel writes, `resultCh` deliveries, number
of `waitForCTSChange` invocations, ids accepted into `writeCh` in order). -/
structure MonSys where
  stopped : Bool
  writeBuf : Option writeRequest
  pendingWrite : Option writeRequest
  phase : MPhase
  ctsActive : Bool
  executed : List Nat
  delivered : List (Nat × Nat × Option Err)
  edgeWaitCalls : Nat
  accepted : List Nat
deriving DecidableEq, Repr

/-- State right after `newCTSMonitor` + `start`: channels empty, goroutine at
the top of its loop, nothing executed or delivered. -/
def initMonSys (cts0 : Bool) : MonSys :=
  { stopped := false
    writeBuf := none
    pendingWrite := none
    phase := .loop
    ctsActive := cts0
    executed := []
    delivered := []
    edgeWaitCalls := 0
    accepted := [] }

/-- One interleaved step of the CTS write gate system: caller-side channel
operations, environment changes of the CTS line, and each atomic section of
the monitor goroutine of `ctsMonitor.start`.  Device-call outcomes (status
query failure, write result, edge-wait result) are resolved by the
constructor's parameters. -/
inductive MonStep : MonSys → MonSys → Prop
  /-- A caller's `c.writeCh <- req` succeeds: the depth-one buffer is empty.
  Each `writeRequest` is a fresh allocation, so its id is new. -/
  | enqueue (s : MonSys) (r : writeRequest)
      (hbuf : s.writeBuf = none) (hfresh : r.id ∉ s.accepted) :
      MonStep s { s with writeBuf := some r, accepted := s.accepted ++ [r.id] }
  /-- The `ctsMonitor.stop`: `close(c.stopCh)`. -/
  | stopClose (s : MonSys) (h : s.stopped = false) :
      MonStep s { s with stopped := true }
  /-- The peer device changes the CTS line level. -/
  | setCTS (s : MonSys) (b : Bool) :
      MonStep s { s with ctsActive := b }
  /-- Monitor, no pending write: the select observes the closed `stopCh`
  and the goroutine returns. -/
  | recvStop (s : MonSys) (hp : s.phase = .loop)
      (hpend : s.pendingWrite = none) (hs : s.stopped = true) :
      MonStep s { s with phase := .exited }
  /-- Monitor, no pending write: the select receives a queued request from
  `writeCh`. -/
  | recvReq (s : MonSys) (r : writeRequest) (hp : s.phase = .loop)
      (hpend : s.pendingWrite = none) (hbuf : s.writeBuf = some r) :
      MonStep s { s with pendingWrite := some r, writeBuf := none }
  /-- Monitor, pending write: `getModemStatus` fails, the error is delivered
  and the pending write cleared (`continue`). -/
  | statusErr (s : MonSys) (r : writeRequest) (e : Err) (hp : s.phase = .loop)
      (hpend : s.pendingWrite = some r) :
      MonStep s { s with pendingWrite := none
                         delivered := s.delivered ++ [(r.id, 0, some e)] }
  /-- Monitor, pending write, CTS active: `unix.Write` executes immediately
  and its result is delivered (`continue`). -/
  | ctsWrite (s : MonSys) (r : writeRequest) (n : Nat) (e : Option Err)
      (hp : s.phase = .loop) (hpend : s.pendingWrite = some r)
      (hcts : s.ctsActive = true) :
      MonStep s { s with pendingWrite := none
                         executed := s.executed ++ [r.id]
                         delivered := s.delivered ++ [(r.id, n, e)] }
  /-- Monitor, pending write, CTS inactive: spawn the `waitForCTSChange`
  goroutine and enter the select racing it against `stopCh`. -/
  | enterWait (s : MonSys) (r : writeRequest) (hp : s.phase = .loop)
      (hpend : s.pendingWrite = some r) (hcts : s.ctsActive = false) :
      MonStep s { s with phase := .waiting
                         edgeWaitCalls := s.edgeWaitCalls + 1 }
  /-- Waiting select: `stopCh` is closed, `ErrPortClosed` is delivered and
  the goroutine returns. -/
  | waitStop (s : MonSys) (r : writeRequest) (hp : s.phase = .waiting)
      (hpend : s.pendingWrite = some r) (hs : s.stopped = true) :
      MonStep s { s with phase := .exited
                         pendingWrite := none
                         delivered := s.delivered ++ [(r.id, 0, some .portClosed)] }
  /-- Waiting select: the edge wait returns without error; loop back to
  re-check the status. -/
  | waitWakeOk (s : MonSys) (hp : s.phase = .waiting) :
      MonStep s { s with phase := .loop }
  /-- Waiting select: the edge wait returns an error; it is delivered and
  the goroutine returns. -/
  | waitWakeErr (s : MonSys) (r : writeRequest) (e : Err)
      (hp : s.phase = .waiting) (hpend : s.pendingWrite = some r) :
      MonStep s { s with phase := .exited
                         pendingWrite := none
                         delivered := s.delivered ++ [(r.id, 0, some e)] }

/-- Reachability of the write-gate system from the freshly started monitor. -/
def MonReach (cts0 : Bool) (s : MonSys) : Prop :=
  Relation.ReflTransGen MonStep (initMonSys cts0) s

/-- Number of PendingWrites outstanding: requests accepted into the system
(buffered in `writeCh` or owned by the monitor goroutine) whose result has
not been delivered. -/
def outstanding (s : MonSys) : Nat :=
  s.writeBuf.toList.length + s.pendingWrite.toList.length

/-- Which branch of `queueWrite`'s first select resolves: the channel send
into `writeCh`, the timer, or the closed `stopCh`. -/
inductive EnqueuePhase
  | sent | timerFired | stopFired
deriving DecidableEq, Repr

/-- Which branch of `queueWrite`'s second select resolves: the buffered
result sent by the monitor goroutine, the timer, or the closed `stopCh`. -/
inductive AwaitPhase
  | resultArrived (n : Nat) (e : Option Err)
  | timerFired
  | stopFired
deriving DecidableEq, Repr

/-- The `ctsMonitor.queueWrite` from port.go as a function of which select
branches fire: enqueue then await, a single shared timer for both phases. -/
def queueWriteResult : EnqueuePhase → AwaitPhase → Nat × Option Err
  | .timerFired, _ => (0, some .ctsTimeout)
  | .stopFired, _ => (0, some .portClosed)
  | .sent, .resultArrived n e => (n, e)
  | .sent, .timerFired => (0, some .ctsTimeout)
  | .sent, .stopFired => (0, some .portClosed)

/-- The `port.Write` from port.go: closed check, then the CTS-gated path through
`queueWrite` with the configured `CTSTimeout`, else a direct `unix.Write`
whose result the environment supplies. -/
def portWrite (p : PState) (enq : EnqueuePhase) (await : AwaitPhase)
    (directRes : Nat × Option Err) : (Nat × Option Err) × List Call :=
  if p.closed then ((0, some .portClosed), [])
  else if p.config.flowControl = FlowControl.flowCTS ∧ p.hasCtsMonitor = true then
    (queueWriteResult enq await, [.queueWriteCall p.config.ctsTimeout])
  else (directRes, [.unixWrite])

/-- The caller-visible state of a Go context: whether `ctx.Done()` is already
closed on entry, the remaining time until its deadline (if any), and the
error `ctx.Err()` reports once done. -/
structure CtxEnv where
  doneAlready : Bool
  remaining : Option Int
  ctxErr : Err
deriving DecidableEq, Repr

/-- The timeout handed to `queueWrite` by `port.WriteContext`: the configured
CTS timeout, shortened to the context's remaining deadline when that is
smaller. -/
def effectiveQueueTimeout (ctsTimeout : Int) (remaining : Option Int) : Int :=
  match remaining with
  | none => ctsTimeout
  | some rem => if rem < ctsTimeout then rem else ctsTimeout

/-- The `port.WriteContext` from port.go: closed check, early `ctx.Done()` check,
then either the gated path (queueWrite in a goroutine racing `ctx.Done()`)
or a direct write racing `ctx.Done()`.  `ctxWinsRace` resolves the select. -/
def WriteContext (p : PState) (ctx : CtxEnv)
    (queueRes : Nat × Option Err) (directRes : Nat × Option Err)
    (ctxWinsRace : Bool) : (Nat × Option Err) × List Call :=
  if p.closed then ((0, some .portClosed), [])
  else if ctx.doneAlready then ((0, some ctx.ctxErr), [])
  else if p.config.flowControl = FlowControl.flowCTS ∧ p.hasCtsMonitor = true then
    let timeout := effectiveQueueTimeout p.config.ctsTimeout ctx.remaining
    if ctxWinsRace then ((0, some ctx.ctxErr), [.queueWriteCall timeout])
    else (queueRes, [.queueWriteCall timeout])
  else
    if ctxWinsRace then ((0, some ctx.ctxErr), [.unixWrite])
    else (directRes, [.unixWrite])

/-- The `port.Read` from port.go. -/
def portRead (p : PState) (readRes : Nat × Option Err) :
    (Nat × Option Err) × List Call :=
  if p.closed then ((0, some .portClosed), []) else (readRes, [.unixRead])

/-- The `port.ReadContext` from port.go: closed check, early `ctx.Done()` check,
then a `unix.Read` in a goroutine racing `ctx.Done()`. -/
def ReadContext (p : PState) (ctx : CtxEnv) (readRes : Nat × Option Err)
    (ctxWinsRace : Bool) : (Nat × Option Err) × List Call :=
  if p.closed then ((0, some .portClosed), [])
  else if ctx.doneAlready then ((0, some ctx.ctxErr), [])
  else if ctxWinsRace then ((0, some ctx.ctxErr), [.unixRead])
  else (readRes, [.unixRead])

/-- The `port.GetCTSStatus` from port.go. -/
def GetCTSStatus (p : PState) (d : Device) (env : IoEnv) :
    Except Err Bool × List Call :=
  if p.closed then (.error .portClosed, [])
  else match env.getStatusErr with
    | some e => (.error e, [.tiocmget])
    | none => (.ok (bitActive d.status TIOCM_CTS), [.tiocmget])

/-- The `port.GetModemSignals` from port.go. -/
def GetModemSignals (p : PState) (d : Device) (env : IoEnv) :
    Except Err ModemSignals × List Call :=
  if p.closed then (.error .portClosed, [])
  else match env.getStatusErr with
    | some e => (.error e, [.tiocmget])
    | none => (.ok (statusToModemSignals d.status), [.tiocmget])

/-- The Go `&^` (and-not) operator on status words. -/
def andNot (a b : Nat) : Nat := Nat.bitwise (fun x y => x && !y) a b

/-- The `port.SetRTS` from port.go: read the status word, set or clear the RTS
bit, write the word back with TIOCMSET.  Returns the error and the device
register after the call. -/
def SetRTS (p : PState) (d : Device) (env : IoEnv) (state : Bool) :
    Option Err × Device × List Call :=
  if p.closed then (some .portClosed, d, [])
  else match env.getStatusErr with
    | some e => (some e, d, [.tiocmget])
    | none =>
      let status := if state then d.status ||| TIOCM_RTS
                    else andNot d.status TIOCM_RTS
      match env.setStatusErr with
      | some e => (some e, d, [.tiocmget, .tiocmset])
      | none => (none, { status := status }, [.tiocmget, .tiocmset])

/-- The `port.GetRTS` from port.go. -/
def GetRTS (p : PState) (d : Device) (env : IoEnv) :
    Except Err Bool × List Call :=
  if p.closed then (.error .portClosed, [])
  else match env.getStatusErr with
    | some e => (.error e, [.tiocmget])
    | none => (.ok (bitActive d.status TIOCM_RTS), [.tiocmget])

/-- The `port.SetDTR` from port.go: same r/m/w as SetRTS on the DTR bit. -/
def SetDTR (p : PState) (d : Device) (env : IoEnv) (state : Bool) :
    Option Err × Device × List Call :=
  if p.closed then (some .portClosed, d, [])
  else match env.getStatusErr with
    | some e => (some e, d, [.tiocmget])
    | none =>
      let status := if state then d.status ||| TIOCM_DTR
                    else andNot d.status TIOCM_DTR
      match env.setStatusErr with
      | some e => (some e, d, [.tiocmget, .tiocmset])
      | none => (none, { status := status }, [.tiocmget, .tiocmset])

/-- The `port.GetDTR` from port.go. -/
def GetDTR (p : PState) (d : Device) (env : IoEnv) :
    Except Err Bool × List Call :=
  if p.closed then (.error .portClosed, [])
  else match env.getStatusErr with
    | some e => (.error e, [.tiocmget])
    | none => (.ok (bitActive d.status TIOCM_DTR), [.tiocmget])

/-- The zero value `ModemSignals{}` returned on every failure path. -/
def emptySignals : ModemSignals :=
  ⟨false, false, false, false, false, false⟩

/-- Environment for one signal-change wait: the two TIOCMGET snapshots, the
TIOCMIWAIT outcome, and which side of the final select resolves first. -/
structure WaitEnv where
  firstStatus : Except Err Nat
  waitErr : Option Err
  secondStatus : Except Err Nat
  racerWins : Bool
deriving Repr

/-- The `port.WaitForSignalChange` from port.go: mask validation, closed check,
"before" snapshot, TIOCMIWAIT in a goroutine raced against a timer
(`racerWins` = the timer fires first), then the "after" snapshot and
`detectSignalChanges`. -/
def WaitForSignalChange (p : PState) (mask : Nat) (env : WaitEnv) :
    (ModemSignals × Nat × Option Err) × List Call :=
  if mask = 0 then ((emptySignals, 0, some .invalidSignalMask), [])
  else if p.closed then ((emptySignals, 0, some .portClosed), [])
  else match env.firstStatus with
  | .error e => ((emptySignals, 0, some e), [.tiocmget])
  | .ok oldStatus =>
    if env.racerWins then
      ((emptySignals, 0, some .signalTimeout), [.tiocmget, .tiocmiwait])
    else match env.waitErr with
    | some e => ((emptySignals, 0, some e), [.tiocmget, .tiocmiwait])
    | none => match env.secondStatus with
      | .error e => ((emptySignals, 0, some e), [.tiocmget, .tiocmiwait, .tiocmget])
      | .ok newStatus =>
        ((statusToModemSignals newStatus,
          detectSignalChanges oldStatus newStatus, none),
         [.tiocmget, .tiocmiwait, .tiocmget])

/-- The `port.WaitForSignalChangeContext` from port.go: as the timed variant but
with an early `ctx.Done()` check and `ctx.Err()` when the context resolves
the final select first. -/
def WaitForSignalChangeContext (p : PState) (mask : Nat) (ctx : CtxEnv)
    (env : WaitEnv) : (ModemSignals × Nat × Option Err) × List Call :=
  if mask = 0 then ((emptySignals, 0, some .invalidSignalMask), [])
  else if p.closed then ((emptySignals, 0, some .portClosed), [])
  else if ctx.doneAlready then ((emptySignals, 0, some ctx.ctxErr), [])
  else match env.firstStatus with
  | .error e => ((emptySignals, 0, some e), [.tiocmget])
  | .ok oldStatus =>
    if env.racerWins then
      ((emptySignals, 0, some ctx.ctxErr), [.tiocmget, .tiocmiwait])
    else match env.waitErr with
    | some e => ((emptySignals, 0, some e), [.tiocmget, .tiocmiwait])
    | none => match env.secondStatus with
      | .error e => ((emptySignals, 0, some e), [.tiocmget, .tiocmiwait, .tiocmget])
      | .ok newStatus =>
        ((statusToModemSignals newStatus,
          detectSignalChanges oldStatus newStatus, none),
         [.tiocmget, .tiocmiwait, .tiocmget])

/-- The `port.Close` from port.go: second call returns `ErrPortClosed`; first
call stops the CTS monitor when one exists, closes the descriptor, and marks
the port closed regardless of the close result. -/
def Close (p : PState) (closeErr : Option Err) :
    Option Err × PState × List Call :=
  if p.closed then (some .portClosed, p, [])
  else (closeErr, { p with closed := true },
        (if p.hasCtsMonitor then [Call.monitorStopCall] else []) ++ [Call.unixClose])

/-- The `port.DrainOutput` from port.go: TCSBRK ioctl behind the closed check. -/
def DrainOutput (p : PState) (ioctlErr : Option Err) :
    Option Err × List Call :=
  if p.closed then (some .portClosed, []) else (ioctlErr, [.tcsbrk])

/-- The `port.FlushInput` from port.go: TCFLSH ioctl behind the closed check. -/
def FlushInput (p : PState) (ioctlErr : Option Err) :
    Option Err × List Call :=
  if p.closed then (some .portClosed, []) else (ioctlErr, [.tcflsh])

/-- The `port.FlushOutput` from port.go: TCFLSH ioctl behind the closed check. -/
def FlushOutput (p : PState) (ioctlErr : Option Err) :
    Option Err × List Call :=
  if p.closed then (some .portClosed, []) else (ioctlErr, [.tcflsh])

/-- The read loop of `port.DrainInput`: consume successive `unix.Read`
results until an error or a zero-length read; returns the loop's result
(`none` when the supplied trace ends before the loop does) and the number of
reads issued. -/
def drainInputLoop : List (Nat × Option Err) → Option (Option Err) × Nat
  | [] => (none, 0)
  | (_, some e) :: _ => (some (some e), 1)
  | (n, none) :: rest =>
    if n = 0 then (some none, 1)
    else
      let r := drainInputLoop rest
      (r.1, r.2 + 1)

/-- The `port.DrainInput` from port.go: closed check, then the read loop. -/
def DrainInput (p : PState) (reads : List (Nat × Option Err)) :
    Option (Option Err) × List Call :=
  if p.closed then (some (some .portClosed), [])
  else
    let r := drainInputLoop reads
    (r.1, List.replicate r.2 .unixRead)

/-- Environment for `Open`'s device-facing steps. -/
structure OpenEnv where
  openErr : Option Err
  configureErr : Option Err
  setRTSErr : Option Err
  verifyStatus : Except Err Nat
  setDTRErr : Option Err
deriving Repr

/-- The `Open` from port.go: apply the options, validate the flow-control
configuration (CTS and RTS/CTS require an `InitialRTS`), open and configure
the device, apply and verify the initial RTS state, apply the initial DTR
state, then build the port, starting a CTS monitor when `FlowControlCTS`. -/
def Open (opts : List ConfigOption) (env : OpenEnv) :
    Except Err PState × List Call :=
  match applyOptions DefaultConfig opts with
  | .error e => (.error e, [])
  | .ok config =>
    if config.flowControl = FlowControl.flowCTS ∧ config.initialRTS = none then
      (.error .ctsRequiresInitialRTS, [])
    else if config.flowControl = FlowControl.flowRTSCTS ∧ config.initialRTS = none then
      (.error .rtsctsRequiresInitialRTS, [])
    else match env.openErr with
    | some _ => (.error .openFailed, [.openDevice])
    | none => match env.configureErr with
      | some e => (.error e, [.openDevice, .configurePortCall, .unixClose])
      | none =>
        let pre : List Call := [.openDevice, .configurePortCall]
        match config.initialRTS with
        | some want =>
          (match env.setRTSErr with
          | some e => (.error e, pre ++ [.tiocmset, .unixClose])
          | none => match env.verifyStatus with
            | .error e => (.error e, pre ++ [.tiocmset, .tiocmget, .unixClose])
            | .ok st =>
              if bitActive st TIOCM_RTS = want then
                (match config.initialDTR with
                | some _ =>
                  (match env.setDTRErr with
                  | some e => (.error e, pre ++ [.tiocmset, .tiocmget, .tiocmset, .unixClose])
                  | none =>
                    (.ok { closed := false, config := config
                           hasCtsMonitor := decide (config.flowControl = FlowControl.flowCTS) },
                     pre ++ [.tiocmset, .tiocmget, .tiocmset]))
                | none =>
                  (.ok { closed := false, config := config
                         hasCtsMonitor := decide (config.flowControl = FlowControl.flowCTS) },
                   pre ++ [.tiocmset, .tiocmget]))
              else (.error .rtsVerifyFailed, pre ++ [.tiocmset, .tiocmget, .unixClose]))
        | none =>
          match config.initialDTR with
          | some _ =>
            (match env.setDTRErr with
            | some e => (.error e, pre ++ [.tiocmset, .unixClose])
            | none =>
              (.ok { closed := false, config := config
                     hasCtsMonitor := decide (config.flowControl = FlowControl.flowCTS) },
               pre ++ [.tiocmset]))
          | none =>
            (.ok { closed := false, config := config
                   hasCtsMonitor := decide (config.flowControl = FlowControl.flowCTS) },
             pre)

/-! ## Bit-level helper lemmas -/

theorem orMask_and_eq (s a m : Nat) (h : a &&& m = 0) :
    (s ||| a) &&& m = s &&& m := by
  apply Nat.eq_of_testBit_eq
  intro k
  have hk : (a &&& m).testBit k = false := by rw [h]; exact Nat.zero_testBit k
  rw [Nat.testBit_and] at hk
  rw [Nat.testBit_and, Nat.testBit_or, Nat.testBit_and]
  cases ha : a.testBit k <;> cases hm : m.testBit k <;> simp_all

theorem or_and_self_eq (s a : Nat) : (s ||| a) &&& a = a := by
  apply Nat.eq_of_testBit_eq
  intro k
  rw [Nat.testBit_and, Nat.testBit_or]
  cases a.testBit k <;> simp

theorem bitActive_or_of_disjoint (s a m : Nat) (h : a &&& m = 0) :
    bitActive (s ||| a) m = bitActive s m := by
  unfold bitActive
  rw [orMask_and_eq s a m h]

theorem bitActive_or_self (s a : Nat) (h : a ≠ 0) :
    bitActive (s ||| a) a = true := by
  unfold bitActive
  rw [or_and_self_eq]
  simpa using h

/-! ## Spec-side definitions used for refinement comparison -/

/-- The changed-bits computation as §4.2 step 5 of the spec words it: the
bitwise XOR of boolean-to-bit encodings of the before/after snapshots,
restricted to the requested mask's line set. -/
def specRestrictedChangedMask (oldStatus newStatus mask : Nat) : Nat :=
  ((if xor (bitActive oldStatus TIOCM_CTS) (bitActive newStatus TIOCM_CTS)
     then SignalCTS else 0) |||
   (if xor (bitActive oldStatus TIOCM_DSR) (bitActive newStatus TIOCM_DSR)
     then SignalDSR else 0) |||
   (if xor (bitActive oldStatus TIOCM_RI) (bitActive newStatus TIOCM_RI)
     then SignalRI else 0) |||
   (if xor (bitActive oldStatus TIOCM_CAR) (bitActive newStatus TIOCM_CAR)
     then SignalDCD else 0)) &&& mask

/-- The same XOR encoding over all four waitable lines with no mask
restriction; this is what the code's `detectSignalChanges` computes. -/
def xorChangedMask (oldStatus newStatus : Nat) : Nat :=
  (if xor (bitActive oldStatus TIOCM_CTS) (bitActive newStatus TIOCM_CTS)
    then SignalCTS else 0) |||
  (if xor (bitActive oldStatus TIOCM_DSR) (bitActive newStatus TIOCM_DSR)
    then SignalDSR else 0) |||
  (if xor (bitActive oldStatus TIOCM_RI) (bitActive newStatus TIOCM_RI)
    then SignalRI else 0) |||
  (if xor (bitActive oldStatus TIOCM_CAR) (bitActive newStatus TIOCM_CAR)
    then SignalDCD else 0)

theorem detectSignalChanges_eq_xorChangedMask (o n : Nat) :
    detectSignalChanges o n = xorChangedMask o n := by
  unfold detectSignalChanges xorChangedMask
  cases bitActive o TIOCM_CTS <;> cases bitActive n TIOCM_CTS <;>
    cases bitActive o TIOCM_DSR <;> cases bitActive n TIOCM_DSR <;>
    cases bitActive o TIOCM_RI <;> cases bitActive n TIOCM_RI <;>
    cases bitActive o TIOCM_CAR <;> cases bitActive n TIOCM_CAR <;> rfl

/-! ## Claim C5 -/

/-- Claim C5: every call to `WaitForSignalChange` or
`WaitForSignalChangeContext` with a zero mask fails immediately with
`ErrInvalidSignalMask`, issues no modem-status query and no blocking
edge-wait call (empty call trace), and leaves the port state untouched
(both operations are read-only on the port in the embedding). -/
theorem waitForSignalChange_zero_mask_rejected (p : PState) (env : WaitEnv)
    (ctx : CtxEnv) :
    WaitForSignalChange p 0 env
      = ((emptySignals, 0, some Err.invalidSignalMask), [])
    ∧ WaitForSignalChangeContext p 0 ctx env
      = ((emptySignals, 0, some Err.invalidSignalMask), []) :=
  ⟨rfl, rfl⟩

/-! ## Claim C7 -/

/-- Claim C7: the first `Close` on an open port stops the CTS monitor first
when one exists, closes the descriptor, returns the descriptor-close result
and marks the port closed; every later `Close` returns `ErrPortClosed`,
issues no calls, and leaves the state unchanged. -/
theorem close_idempotent_detecting (p : PState) (e1 e2 : Option Err)
    (hopen : p.closed = false) :
    (Close p e1).1 = e1
    ∧ (Close p e1).2.1.closed = true
    ∧ (Close p e1).2.2
        = (if p.hasCtsMonitor then [Call.monitorStopCall] else []) ++ [Call.unixClose]
    ∧ (Close (Close p e1).2.1 e2).1 = some Err.portClosed
    ∧ (Close (Close p e1).2.1 e2).2.2 = []
    ∧ (Close (Close p e1).2.1 e2).2.1 = (Close p e1).2.1 := by
  simp [Close, hopen]

theorem close_idempotent_detecting_witness :
    let p : PState := ⟨false, DefaultConfig, true⟩
    (Close p none).1 = none
    ∧ (Close p none).2.1.closed = true
    ∧ (Close p none).2.2 = [Call.monitorStopCall, Call.unixClose]
    ∧ (Close (Close p none).2.1 none).1 = some Err.portClosed := by
  have h := close_idempotent_detecting ⟨false, DefaultConfig, true⟩ none none rfl
  exact ⟨h.1, h.2.1, by simpa using h.2.2.1, h.2.2.2.1⟩

/-! ## Claim C2 -/

/-- Claim C2 counterexample: a wait on mask `SignalDSR` during which only the
CTS line toggles (before status 0, after status `TIOCM_CTS`) completes
successfully and returns changed-mask `SignalCTS` — a line that is not in
the requested mask — whereas the spec's mask-restricted XOR is 0. -/
theorem changedMask_not_restricted_cex :
    (WaitForSignalChange ⟨false, DefaultConfig, false⟩ SignalDSR
        ⟨.ok 0, none, .ok TIOCM_CTS, false⟩).1.2.2 = none
    ∧ (WaitForSignalChange ⟨false, DefaultConfig, false⟩ SignalDSR
        ⟨.ok 0, none, .ok TIOCM_CTS, false⟩).1.2.1 = SignalCTS
    ∧ SignalCTS &&& SignalDSR = 0
    ∧ specRestrictedChangedMask 0 TIOCM_CTS SignalDSR = 0
    ∧ SignalCTS ≠ 0 := by
  refine ⟨rfl, rfl, rfl, rfl, ?_⟩
  decide

/-- Claim C2 as amended: every successful `WaitForSignalChange` returns the
"after" snapshot together with the XOR of the before/after boolean-to-bit
encodings over all four waitable lines (CTS, DSR, RI, DCD) with no
restriction to the requested mask. -/
theorem changedMask_is_unrestricted_xor (p : PState) (mask : Nat)
    (env : WaitEnv) (ctx : CtxEnv) (o n : Nat)
    (hmask : mask ≠ 0) (hopen : p.closed = false)
    (hctx : ctx.doneAlready = false)
    (h1 : env.firstStatus = .ok o) (hrace : env.racerWins = false)
    (hw : env.waitErr = none) (h2 : env.secondStatus = .ok n) :
    (WaitForSignalChange p mask env).1
      = (statusToModemSignals n, xorChangedMask o n, none)
    ∧ (WaitForSignalChangeContext p mask ctx env).1
      = (statusToModemSignals n, xorChangedMask o n, none) := by
  constructor
  · simp [WaitForSignalChange, hmask, hopen, h1, hrace, hw, h2,
      detectSignalChanges_eq_xorChangedMask]
  · simp [WaitForSignalChangeContext, hmask, hopen, hctx, h1, hrace, hw, h2,
      detectSignalChanges_eq_xorChangedMask]

theorem changedMask_is_unrestricted_xor_witness :
    (WaitForSignalChange ⟨false, DefaultConfig, false⟩ (SignalDSR ||| SignalDCD)
        ⟨.ok 0, none, .ok TIOCM_CAR, false⟩).1
      = (statusToModemSignals TIOCM_CAR, xorChangedMask 0 TIOCM_CAR, none)
    ∧ (WaitForSignalChangeContext ⟨false, DefaultConfig, false⟩
        (SignalDSR ||| SignalDCD) ⟨false, none, Err.ctxCanceled⟩
        ⟨.ok 0, none, .ok TIOCM_CAR, false⟩).1
      = (statusToModemSignals TIOCM_CAR, xorChangedMask 0 TIOCM_CAR, none)
    ∧ xorChangedMask 0 TIOCM_CAR = SignalDCD := by
  have h := changedMask_is_unrestricted_xor ⟨false, DefaultConfig, false⟩
    (SignalDSR ||| SignalDCD) ⟨.ok 0, none, .ok TIOCM_CAR, false⟩
    ⟨false, none, Err.ctxCanceled⟩ 0 TIOCM_CAR
    (by decide) rfl rfl rfl rfl rfl rfl
  exact ⟨h.1, h.2, by decide⟩

/-! ## Claim C6 -/

/-- Claim C6: on the gated path of `WriteContext` with both a configured CTS
timeout and a context deadline, the timeout handed to `queueWrite` is the
minimum of the two, and when the context resolves first the call returns the
context's error. -/
theorem writeContext_tighter_bound (p : PState) (ctx : CtxEnv)
    (qr dr : Nat × Option Err) (rem : Int)
    (hopen : p.closed = false) (hnd : ctx.doneAlready = false)
    (hflow : p.config.flowControl = FlowControl.flowCTS)
    (hmon : p.hasCtsMonitor = true)
    (hrem : ctx.remaining = some rem) :
    (WriteContext p ctx qr dr false).2
      = [Call.queueWriteCall (min rem p.config.ctsTimeout)]
    ∧ (WriteContext p ctx qr dr true).1 = (0, some ctx.ctxErr)
    ∧ (WriteContext p ctx qr dr true).2
      = [Call.queueWriteCall (min rem p.config.ctsTimeout)]
    ∧ (WriteContext p ctx qr dr false).1 = qr := by
  have hmin : effectiveQueueTimeout p.config.ctsTimeout ctx.remaining
      = min rem p.config.ctsTimeout := by
    rw [hrem]
    show (if rem < p.config.ctsTimeout then rem else p.config.ctsTimeout)
      = min rem p.config.ctsTimeout
    rcases lt_or_le rem p.config.ctsTimeout with h | h
    · rw [if_pos h, min_eq_left h.le]
    · rw [if_neg (not_lt.mpr h), min_eq_right h]
  simp [WriteContext, hopen, hnd, hflow, hmon, hmin]

theorem writeContext_tighter_bound_witness :
    let cfg : Config := { DefaultConfig with flowControl := .flowCTS, ctsTimeout := 500000000, initialRTS := some true }
    let p : PState := ⟨false, cfg, true⟩
    let ctx : CtxEnv := ⟨false, some 100000000, Err.ctxCanceled⟩
    (WriteContext p ctx (5, none) (5, none) true).1 = (0, some Err.ctxCanceled)
    ∧ (WriteContext p ctx (5, none) (5, none) true).2
      = [Call.queueWriteCall 100000000] := by
  have h := writeContext_tighter_bound
    ⟨false, { DefaultConfig with flowControl := .flowCTS, ctsTimeout := 500000000, initialRTS := some true }, true⟩
    ⟨false, some 100000000, Err.ctxCanceled⟩ (5, none) (5, none) 100000000
    rfl rfl rfl rfl rfl
  exact ⟨h.2.1, by simpa using h.2.2.1⟩

/-! ## Claim C8 -/

/-- Claim C8: on an open port with a faithful mock device, `SetRTS true`
succeeds and changes only the RTS bit of the status register: the signal
snapshots immediately before and after agree on CTS, DSR, RI, DCD and DTR,
and RTS goes from false (when previously deasserted) to true. -/
theorem setRTS_flips_only_RTS (p : PState) (d : Device)
    (hopen : p.closed = false)
    (hrts : (statusToModemSignals d.status).RTS = false) :
    (GetModemSignals p d ⟨none, none⟩).1
      = Except.ok (statusToModemSignals d.status)
    ∧ (SetRTS p d ⟨none, none⟩ true).1 = none
    ∧ (GetModemSignals p (SetRTS p d ⟨none, none⟩ true).2.1 ⟨none, none⟩).1
      = Except.ok (statusToModemSignals (d.status ||| TIOCM_RTS))
    ∧ (statusToModemSignals d.status).RTS = false
    ∧ (statusToModemSignals (d.status ||| TIOCM_RTS)).RTS = true
    ∧ (statusToModemSignals (d.status ||| TIOCM_RTS)).CTS
      = (statusToModemSignals d.status).CTS
    ∧ (statusToModemSignals (d.status ||| TIOCM_RTS)).DSR
      = (statusToModemSignals d.status).DSR
    ∧ (statusToModemSignals (d.status ||| TIOCM_RTS)).RI
      = (statusToModemSignals d.status).RI
    ∧ (statusToModemSignals (d.status ||| TIOCM_RTS)).DCD
      = (statusToModemSignals d.status).DCD
    ∧ (statusToModemSignals (d.status ||| TIOCM_RTS)).DTR
      = (statusToModemSignals d.status).DTR := by
  refine ⟨by simp [GetModemSignals, hopen], by simp [SetRTS, hopen],
    by simp [GetModemSignals, SetRTS, hopen], hrts, ?_, ?_, ?_, ?_, ?_, ?_⟩
  · simp [statusToModemSignals, bitActive_or_self d.status TIOCM_RTS (by decide)]
  · simp [statusToModemSignals,
      bitActive_or_of_disjoint d.status TIOCM_RTS TIOCM_CTS (by decide)]
  · simp [statusToModemSignals,
      bitActive_or_of_disjoint d.status TIOCM_RTS TIOCM_DSR (by decide)]
  · simp [statusToModemSignals,
      bitActive_or_of_disjoint d.status TIOCM_RTS TIOCM_RI (by decide)]
  · simp [statusToModemSignals,
      bitActive_or_of_disjoint d.status TIOCM_RTS TIOCM_CAR (by decide)]
  · simp [statusToModemSignals,
      bitActive_or_of_disjoint d.status TIOCM_RTS TIOCM_DTR (by decide)]

theorem setRTS_flips_only_RTS_witness :
    let p : PState := ⟨false, DefaultConfig, false⟩
    let d : Device := ⟨TIOCM_CTS ||| TIOCM_DSR⟩
    (SetRTS p d ⟨none, none⟩ true).1 = none
    ∧ (statusToModemSignals d.status).RTS = false
    ∧ (statusToModemSignals (d.status ||| TIOCM_RTS)).RTS = true
    ∧ (statusToModemSignals (d.status ||| TIOCM_RTS)).CTS
      = (statusToModemSignals d.status).CTS := by
  have h := setRTS_flips_only_RTS ⟨false, DefaultConfig, false⟩
    ⟨TIOCM_CTS ||| TIOCM_DSR⟩ rfl (by decide)
  exact ⟨h.2.1, h.2.2.2.1, h.2.2.2.2.1, h.2.2.2.2.2.1⟩

/-! ## Write-gate invariants -/

/-- Ids held by an optional request slot. -/
def optIds : Option writeRequest → List Nat
  | none => []
  | some r => [r.id]

/-- The structural invariant of the write gate: the accepted requests, in
order, are exactly the delivered ones followed by the one owned by the
monitor goroutine followed by the one still buffered in `writeCh`; and no
request id is accepted twice. -/
def MonInv (s : MonSys) : Prop :=
  s.delivered.map (fun t => t.1) ++ optIds s.pendingWrite ++ optIds s.writeBuf
    = s.accepted
  ∧ s.accepted.Nodup

theorem monInv_init (cts0 : Bool) : MonInv (initMonSys cts0) := by
  constructor <;> simp [initMonSys, optIds]

theorem monInv_step {s t : MonSys} (h : MonStep s t) (ih : MonInv s) :
    MonInv t := by
  obtain ⟨heq, hnd⟩ := ih
  cases h with
  | enqueue r hbuf hfresh =>
    refine ⟨?_, by simp [List.nodup_append, hnd, hfresh]⟩
    simp only [hbuf, optIds, List.append_nil] at heq
    simp only [optIds, ← heq, List.append_assoc]
  | stopClose h => exact ⟨heq, hnd⟩
  | setCTS b => exact ⟨heq, hnd⟩
  | recvStop hp hpend hs => exact ⟨heq, hnd⟩
  | recvReq r hp hpend hbuf =>
    refine ⟨?_, hnd⟩
    simp only [hpend, hbuf, optIds, List.append_nil, List.nil_append] at heq ⊢
    simpa using heq
  | statusErr r e hp hpend =>
    refine ⟨?_, hnd⟩
    simp only [hpend, optIds, List.map_append, List.map_cons, List.map_nil,
      List.append_nil, List.nil_append, List.append_assoc] at heq ⊢
    simpa using heq
  | ctsWrite r n e hp hpend hcts =>
    refine ⟨?_, hnd⟩
    simp only [hpend, optIds, List.map_append, List.map_cons, List.map_nil,
      List.append_nil, List.nil_append, List.append_assoc] at heq ⊢
    simpa using heq
  | enterWait r hp hpend hcts => exact ⟨heq, hnd⟩
  | waitStop r hp hpend hs =>
    refine ⟨?_, hnd⟩
    simp only [hpend, optIds, List.map_append, List.map_cons, List.map_nil,
      List.append_nil, List.nil_append, List.append_assoc] at heq ⊢
    simpa using heq
  | waitWakeOk hp => exact ⟨heq, hnd⟩
  | waitWakeErr r e hp hpend =>
    refine ⟨?_, hnd⟩
    simp only [hpend, optIds, List.map_append, List.map_cons, List.map_nil,
      List.append_nil, List.nil_append, List.append_assoc] at heq ⊢
    simpa using heq

theorem monReach_inv {cts0 : Bool} {s : MonSys} (h : MonReach cts0 s) :
    MonInv s := by
  unfold MonReach at h
  induction h with
  | refl => exact monInv_init cts0
  | tail _ hstep ih => exact monInv_step hstep ih

/-! ## Claim C1 -/

/-- A reachable write-gate state in which two PendingWrites are outstanding
at the same instant: request 1 is owned by the monitor goroutine and request
2 sits in the depth-one `writeCh` buffer. -/
def twoOutstandingState : MonSys :=
  { stopped := false
    writeBuf := some ⟨2, [72, 73]⟩
    pendingWrite := some ⟨1, [80, 73, 78, 71]⟩
    phase := .loop
    ctsActive := false
    executed := []
    delivered := []
    edgeWaitCalls := 0
    accepted := [1, 2] }

/-- Claim C1 counterexample: with CTS flow control active, a state with two
outstanding PendingWrites is reachable — the monitor dequeues the first
request, freeing the depth-one channel buffer, and a second concurrent gated
write is then accepted immediately while the first is still in flight, so
the instrumentation count reaches 2, not 1. -/
theorem two_pendingWrites_reachable_cex :
    MonReach false twoOutstandingState ∧ outstanding twoOutstandingState = 2 := by
  refine ⟨?_, rfl⟩
  have h1 : MonStep (initMonSys false)
      ⟨false, some ⟨1, [80, 73, 78, 71]⟩, none, .loop, false, [], [], 0, [1]⟩ :=
    MonStep.enqueue (initMonSys false) ⟨1, [80, 73, 78, 71]⟩ rfl (by simp [initMonSys])
  have h2 : MonStep
      ⟨false, some ⟨1, [80, 73, 78, 71]⟩, none, .loop, false, [], [], 0, [1]⟩
      ⟨false, none, some ⟨1, [80, 73, 78, 71]⟩, .loop, false, [], [], 0, [1]⟩ :=
    MonStep.recvReq _ ⟨1, [80, 73, 78, 71]⟩ rfl rfl rfl
  have h3 : MonStep
      ⟨false, none, some ⟨1, [80, 73, 78, 71]⟩, .loop, false, [], [], 0, [1]⟩
      twoOutstandingState :=
    MonStep.enqueue _ ⟨2, [72, 73]⟩ rfl (by simp)
  exact Relation.ReflTransGen.tail
    (Relation.ReflTransGen.tail (Relation.ReflTransGen.tail .refl h1) h2) h3

/-- Claim C1 as amended: in every reachable write-gate state at most two
PendingWrites are outstanding (one owned by the monitor goroutine plus one
buffered in the depth-one `writeCh`); requests are served strictly in
acceptance order (the accepted ids are exactly the delivered ids followed by
the owned one followed by the buffered one); and no request is ever
delivered twice, so an accepted write is never overwritten or interleaved
with another. -/
theorem pendingWrite_bounded_and_ordered (cts0 : Bool) (s : MonSys)
    (h : MonReach cts0 s) :
    outstanding s ≤ 2
    ∧ s.delivered.map (fun t => t.1) ++ optIds s.pendingWrite ++ optIds s.writeBuf
        = s.accepted
    ∧ ∀ i, (s.delivered.map (fun t => t.1)).count i ≤ 1 := by
  have inv := monReach_inv h
  refine ⟨?_, inv.1, ?_⟩
  · unfold outstanding
    cases s.writeBuf <;> cases s.pendingWrite <;> simp [Option.toList]
  · intro i
    have hnd : (s.delivered.map (fun t => t.1)).Nodup := by
      have h2 := inv.2
      rw [← inv.1] at h2
      exact (List.Nodup.of_append_left h2).of_append_left
    exact List.nodup_iff_count_le_one.mp hnd i

theorem pendingWrite_bounded_and_ordered_witness :
    outstanding ⟨false, some ⟨1, [80]⟩, none, .loop, true, [], [], 0, [1]⟩ ≤ 2
    ∧ (⟨false, some ⟨1, [80]⟩, none, .loop, true, [], [], 0, [1]⟩ : MonSys).delivered.map (fun t => t.1)
        ++ optIds none ++ optIds (some ⟨1, [80]⟩) = [1]
    ∧ (((⟨false, some ⟨1, [80]⟩, none, .loop, true, [], [], 0, [1]⟩ : MonSys).delivered.map (fun t => t.1)).count 1 ≤ 1) := by
  have hre : MonReach true ⟨false, some ⟨1, [80]⟩, none, .loop, true, [], [], 0, [1]⟩ :=
    Relation.ReflTransGen.tail .refl
      (MonStep.enqueue (initMonSys true) ⟨1, [80]⟩ rfl (by simp [initMonSys]))
  have h := pendingWrite_bounded_and_ordered true _ hre
  exact ⟨h.1, by simpa using h.2.1, h.2.2 1⟩

/-! ## Claim C3 -/

/-- Claim C3: once a gated write has been accepted by the background task,
a caller timeout makes `queueWrite` return `ErrCTSTimeout`, yet the task
does not abandon the write — a continuation exists in which it still
executes the kernel write and delivers the result — and the late delivery
cannot block or panic the task: each request's one-slot buffered result
channel receives at most one send in every reachable state. -/
theorem accepted_write_survives_caller_timeout (cts0 : Bool) (s : MonSys)
    (r : writeRequest) (hreach : MonReach cts0 s)
    (hphase : s.phase = MPhase.loop) (hpend : s.pendingWrite = some r) :
    queueWriteResult EnqueuePhase.sent AwaitPhase.timerFired
      = (0, some Err.ctsTimeout)
    ∧ (∃ s2 : MonSys, Relation.ReflTransGen MonStep s s2
        ∧ s2.executed = s.executed ++ [r.id]
        ∧ (r.id, r.data.length, (none : Option Err)) ∈ s2.delivered)
    ∧ ∀ t : MonSys, MonReach cts0 t →
        (t.delivered.map (fun x => x.1)).count r.id ≤ 1 := by
  refine ⟨rfl, ?_, ?_⟩
  · refine ⟨_, Relation.ReflTransGen.tail
      (Relation.ReflTransGen.tail .refl (MonStep.setCTS s true))
      (MonStep.ctsWrite { s with ctsActive := true } r r.data.length none
        hphase hpend rfl), rfl, ?_⟩
    simp
  · intro t ht
    have inv := monReach_inv ht
    have hnd : (t.delivered.map (fun x => x.1)).Nodup := by
      have h2 := inv.2
      rw [← inv.1] at h2
      exact (List.Nodup.of_append_left h2).of_append_left
    exact List.nodup_iff_count_le_one.mp hnd r.id

theorem accepted_write_survives_caller_timeout_witness :
    queueWriteResult EnqueuePhase.sent AwaitPhase.timerFired
      = (0, some Err.ctsTimeout)
    ∧ ((⟨false, none, some ⟨1, [80, 73, 78, 71]⟩, .loop, false, [], [], 0, [1]⟩ :
          MonSys).delivered.map (fun x => x.1)).count 1 ≤ 1 := by
  have hre : MonReach false
      ⟨false, none, some ⟨1, [80, 73, 78, 71]⟩, .loop, false, [], [], 0, [1]⟩ :=
    Relation.ReflTransGen.tail
      (Relation.ReflTransGen.tail .refl
        (MonStep.enqueue (initMonSys false) ⟨1, [80, 73, 78, 71]⟩ rfl
          (by simp [initMonSys])))
      (MonStep.recvReq _ ⟨1, [80, 73, 78, 71]⟩ rfl rfl rfl)
  have h := accepted_write_survives_caller_timeout false _ ⟨1, [80, 73, 78, 71]⟩
    hre rfl rfl
  exact ⟨h.1, h.2.2 _ hre⟩

/-! ## Claim C4 -/

/-- Claim C4: while the monitor goroutine holds a pending write and the
modem status reports CTS active, the immediate-transmit step is enabled
(execute the write and deliver its result), no step from such a state
invokes the blocking edge-wait primitive or enters the waiting phase, and
the delivered byte count with nil error reaches the caller of the gated
`port.Write` unchanged. -/
theorem ctsActive_immediate_transmit (s : MonSys) (r : writeRequest)
    (hp : s.phase = MPhase.loop) (hpend : s.pendingWrite = some r)
    (hcts : s.ctsActive = true) :
    MonStep s { s with pendingWrite := none
                       executed := s.executed ++ [r.id]
                       delivered := s.delivered ++ [(r.id, r.data.length, none)] }
    ∧ (∀ s2 : MonSys, MonStep s s2 →
        s2.edgeWaitCalls = s.edgeWaitCalls ∧ s2.phase ≠ MPhase.waiting)
    ∧ queueWriteResult EnqueuePhase.sent
        (AwaitPhase.resultArrived r.data.length none) = (r.data.length, none)
    ∧ ∀ (p : PState) (dr : Nat × Option Err), p.closed = false →
        p.config.flowControl = FlowControl.flowCTS → p.hasCtsMonitor = true →
        portWrite p EnqueuePhase.sent (AwaitPhase.resultArrived r.data.length none) dr
          = ((r.data.length, none), [Call.queueWriteCall p.config.ctsTimeout]) := by
  refine ⟨MonStep.ctsWrite s r r.data.length none hp hpend hcts, ?_, rfl, ?_⟩
  · intro s2 hstep
    cases hstep with
    | enqueue r2 hbuf hfresh => exact ⟨rfl, by rw [hp]; simp⟩
    | stopClose h2 => exact ⟨rfl, by rw [hp]; simp⟩
    | setCTS b => exact ⟨rfl, by rw [hp]; simp⟩
    | recvStop hp2 hpend2 hs2 => exact ⟨rfl, by simp⟩
    | recvReq r2 hp2 hpend2 hbuf2 => exact ⟨rfl, by rw [hp]; simp⟩
    | statusErr r2 e2 hp2 hpend2 => exact ⟨rfl, by rw [hp]; simp⟩
    | ctsWrite r2 n2 e2 hp2 hpend2 hcts2 => exact ⟨rfl, by rw [hp]; simp⟩
    | enterWait r2 hp2 hpend2 hcts2 => rw [hcts] at hcts2; cases hcts2
    | waitStop r2 hp2 hpend2 hs2 => rw [hp] at hp2; cases hp2
    | waitWakeOk hp2 => rw [hp] at hp2; cases hp2
    | waitWakeErr r2 e2 hp2 hpend2 => rw [hp] at hp2; cases hp2
  · intro p dr hopen hflow hmon
    simp [portWrite, queueWriteResult, hopen, hflow, hmon]

theorem ctsActive_immediate_transmit_witness :
    queueWriteResult EnqueuePhase.sent (AwaitPhase.resultArrived 5 none)
      = (5, none)
    ∧ portWrite
        ⟨false, { DefaultConfig with flowControl := .flowCTS, ctsTimeout := 1000000000, initialRTS := some true }, true⟩
        EnqueuePhase.sent (AwaitPhase.resultArrived 5 none) (0, none)
      = ((5, none), [Call.queueWriteCall 1000000000]) := by
  have h := ctsActive_immediate_transmit
    ⟨false, none, some ⟨1, [72, 69, 76, 76, 79]⟩, .loop, true, [], [], 0, [1]⟩
    ⟨1, [72, 69, 76, 76, 79]⟩ rfl rfl rfl
  exact ⟨h.2.2.1,
    h.2.2.2 ⟨false, { DefaultConfig with flowControl := .flowCTS, ctsTimeout := 1000000000, initialRTS := some true }, true⟩
      (0, none) rfl rfl rfl⟩

/-! ## Claim C9 -/

/-- Claim C9: whenever the configuration resulting from the options selects
CTS or RTS/CTS flow control but leaves `InitialRTS` unset, `Open` fails with
the corresponding validation error and issues no device call at all — in
particular the device is never opened and no port is returned. -/
theorem open_flow_control_requires_initialRTS (opts : List ConfigOption)
    (env : OpenEnv) (cfg : Config)
    (hcfg : applyOptions DefaultConfig opts = .ok cfg)
    (hfc : cfg.flowControl = FlowControl.flowCTS
         ∨ cfg.flowControl = FlowControl.flowRTSCTS)
    (hrts : cfg.initialRTS = none) :
    (Open opts env).1
      = .error (if cfg.flowControl = FlowControl.flowCTS
                then Err.ctsRequiresInitialRTS else Err.rtsctsRequiresInitialRTS)
    ∧ (Open opts env).2 = [] := by
  unfold Open
  rw [hcfg]
  rcases hfc with h | h <;> simp [h, hrts]

theorem open_flow_control_requires_initialRTS_witness :
    (Open [WithFlowControl .flowCTS] ⟨none, none, none, .ok 0, none⟩).1
      = .error Err.ctsRequiresInitialRTS
    ∧ (Open [WithFlowControl .flowCTS] ⟨none, none, none, .ok 0, none⟩).2 = [] := by
  have h := open_flow_control_requires_initialRTS [WithFlowControl .flowCTS]
    ⟨none, none, none, .ok 0, none⟩
    { DefaultConfig with flowControl := .flowCTS } rfl (Or.inl rfl) rfl
  simpa using h

/-! ## Claim C10 -/

/-- Claim C10 counterexample: on a port already closed, `WaitForSignalChange`
with a zero mask returns `ErrInvalidSignalMask` rather than `ErrPortClosed`,
because the code validates the mask before checking the closed flag — so not
every public operation on a closed port returns `ErrPortClosed`. -/
theorem closed_port_zero_mask_cex :
    (WaitForSignalChange ⟨true, DefaultConfig, false⟩ 0
        ⟨.ok 0, none, .ok 0, false⟩).1.2.2 = some Err.invalidSignalMask
    ∧ (WaitForSignalChange ⟨true, DefaultConfig, false⟩ 0
        ⟨.ok 0, none, .ok 0, false⟩).1.2.2 ≠ some Err.portClosed :=
  ⟨rfl, by decide⟩

/-- Claim C10 as amended: `Close` marks the port closed even when the
descriptor close itself returned an error, and afterwards every public
operation returns `ErrPortClosed` while issuing no device call — with the
single exception forced by the code that the two signal-change waiters
validate the mask first, so with a zero mask they return
`ErrInvalidSignalMask`, likewise without touching the descriptor. -/
theorem closed_port_rejects_everything (p : PState) (hp : p.closed = true)
    (q : PState) (hq : q.closed = false) (ce : Option Err)
    (d : Device) (io : IoEnv) (wenv : WaitEnv) (ctx : CtxEnv)
    (mask : Nat) (hmask : mask ≠ 0) (st b : Bool)
    (rr dr qres : Nat × Option Err) (enq : EnqueuePhase) (aw : AwaitPhase)
    (e : Option Err) (reads : List (Nat × Option Err)) :
    (Close q ce).2.1.closed = true
    ∧ portRead p rr = ((0, some .portClosed), [])
    ∧ portWrite p enq aw dr = ((0, some .portClosed), [])
    ∧ WriteContext p ctx qres dr b = ((0, some .portClosed), [])
    ∧ ReadContext p ctx rr b = ((0, some .portClosed), [])
    ∧ GetCTSStatus p d io = (.error .portClosed, [])
    ∧ GetModemSignals p d io = (.error .portClosed, [])
    ∧ SetRTS p d io st = (some .portClosed, d, [])
    ∧ GetRTS p d io = (.error .portClosed, [])
    ∧ SetDTR p d io st = (some .portClosed, d, [])
    ∧ GetDTR p d io = (.error .portClosed, [])
    ∧ WaitForSignalChange p mask wenv
        = ((emptySignals, 0, some .portClosed), [])
    ∧ WaitForSignalChangeContext p mask ctx wenv
        = ((emptySignals, 0, some .portClosed), [])
    ∧ WaitForSignalChange p 0 wenv
        = ((emptySignals, 0, some .invalidSignalMask), [])
    ∧ WaitForSignalChangeContext p 0 ctx wenv
        = ((emptySignals, 0, some .invalidSignalMask), [])
    ∧ DrainOutput p e = (some .portClosed, [])
    ∧ DrainInput p reads = (some (some .portClosed), [])
    ∧ FlushInput p e = (some .portClosed, [])
    ∧ FlushOutput p e = (some .portClosed, [])
    ∧ Close p ce = (some .portClosed, p, []) := by
  refine ⟨by simp [Close, hq], ?_⟩
  simp [portRead, portWrite, WriteContext, ReadContext, GetCTSStatus,
    GetModemSignals, SetRTS, GetRTS, SetDTR, GetDTR, WaitForSignalChange,
    WaitForSignalChangeContext, DrainOutput, DrainInput, FlushInput,
    FlushOutput, Close, hp, hmask]

theorem closed_port_rejects_everything_witness :
    (Close ⟨false, DefaultConfig, true⟩ (some (Err.ioError 5))).2.1.closed = true
    ∧ portRead ⟨true, DefaultConfig, false⟩ (3, none)
        = ((0, some Err.portClosed), [])
    ∧ WaitForSignalChange ⟨true, DefaultConfig, false⟩ 1
        ⟨.ok 0, none, .ok 0, false⟩ = ((emptySignals, 0, some Err.portClosed), [])
    ∧ WaitForSignalChange ⟨true, DefaultConfig, false⟩ 0
        ⟨.ok 0, none, .ok 0, false⟩
        = ((emptySignals, 0, some Err.invalidSignalMask), []) := by
  have h := closed_port_rejects_everything ⟨true, DefaultConfig, false⟩ rfl
    ⟨false, DefaultConfig, true⟩ rfl (some (Err.ioError 5)) ⟨0⟩ ⟨none, none⟩
    ⟨.ok 0, none, .ok 0, false⟩ ⟨false, none, Err.ctxCanceled⟩ 1 (by decide)
    true false (3, none) (0, none) (0, none) .sent .timerFired none []
  exact ⟨h.1, h.2.1, h.2.2.2.2.2.2.2.2.2.2.2.1, h.2.2.2.2.2.2.2.2.2.2.2.2.2.1⟩

end GoSerial
